import Mathlib

/-!
Shallow embedding of the `webui` crate (`src/lib.rs`) — a Rust HTML UI
framework whose core is an element registry (`AppState.elements`, a
`HashMap<String, UiElement>` behind a `Mutex`), a broadcast update bus
(`tokio::sync::broadcast`), and an event dispatcher
(`handle_click` / `handle_input` / `handle_change`).

Modelling decisions:
* Rust callbacks (`Fn()`, `Fn(&str)`, `Fn(bool)`, `Fn(f64)`) are modelled as
  pure state transformers over an abstract handler-world type `σ`
  (`σ → σ`, `String → σ → σ`, …); invoking a handler applies the function.
* `f64` values carried by elements are modelled as `Rat`; no floating-point
  arithmetic is performed anywhere in the code under study — numbers are
  only stored and passed through.
* `serde_json::Value` is modelled by `Json`; its `Number` (i64/u64/f64) by
  `JNumber` (integer or float).  `serde_json`'s `as_bool` succeeds exactly
  on `Bool`, and `as_f64` succeeds exactly on `Number` (all three numeric
  representations convert).
* The `HashMap` is modelled as an association list whose insert enforces
  the map's key-uniqueness (the new binding replaces every binding of the
  same key); lookup returns the first (unique) match.
* The `tokio::sync::broadcast` channel is modelled by the list of
  per-subscriber pending queues: `send` appends the message to every
  queue, and returns an error (which `update_element` discards with
  `let _ =`) when there are no subscribers.
* The `Mutex` discipline of each `AppState` method is embedded as a trace
  of lock events (`acquire` / `release` / handler body), derived from the
  scoping of the `MutexGuard` in the Rust source.
-/

namespace WebUI

/-- `serde_json::Number`: an i64/u64 integer or an f64 float (floats
modelled as rationals; only carried, never computed with). -/
inductive JNumber where
  | intVal (i : Int)
  | floatVal (q : Rat)
deriving DecidableEq

/-- `serde_json::Value`. -/
inductive Json where
  | null
  | bool (b : Bool)
  | num (n : JNumber)
  | str (s : String)
  | arr (xs : List Json)
  | obj (fields : List (String × Json))

/-- `serde_json::Value::as_bool`: `Some` exactly on `Bool`. -/
def Json.as_bool : Json → Option Bool
  | .bool b => some b
  | _ => none

/-- `serde_json::Value::as_f64`: `Some` exactly on `Number`; i64, u64 and
f64 representations all convert. -/
def Json.as_f64 : Json → Option Rat
  | .num (.intVal i) => some (i : Rat)
  | .num (.floatVal q) => some q
  | _ => none

/-- `UiElement` from `src/lib.rs`, parametrised by the handler-world type
`σ`: each `#[serde(skip)]` callback field is an optional state transformer
over `σ`. -/
inductive UiElement (σ : Type) where
  | Button (id text : String) (on_click : Option (σ → σ))
  | Text (id text : String)
  | Input (id value : String) (on_input : Option (String → σ → σ))
  | Checkbox (id : String) (checked : Bool) (on_change : Option (Bool → σ → σ))
  | Slider (id : String) (value min max : Rat) (step : Option Rat)
      (on_change : Option (Rat → σ → σ))
  | Radio (id name value : String) (checked : Bool) (on_change : Option (Bool → σ → σ))
  | NumberInput (id : String) (value : Rat) (min max step : Option Rat)
      (on_change : Option (Rat → σ → σ))

/-- The id extraction performed by `AppState::add_element`'s `match`. -/
def elementId {σ : Type} : UiElement σ → String
  | .Button id _ _ => id
  | .Text id _ => id
  | .Input id _ _ => id
  | .Checkbox id _ _ => id
  | .Slider id _ _ _ _ _ => id
  | .Radio id _ _ _ _ => id
  | .NumberInput id _ _ _ _ _ => id

/-- `ServerMessage` from `src/lib.rs`. -/
inductive ServerMessage (σ : Type) where
  | Init (elements : List (UiElement σ))
  | Update (id : String) (element : UiElement σ)

/-- `ClientMessage` from `src/lib.rs`. -/
inductive ClientMessage where
  | Click (id : String)
  | Input (id : String) (value : String)
  | Change (id : String) (value : Json)

/-- `HashMap::get`: the value bound to `k` (keys are unique). -/
def mapGet {α : Type} (m : List (String × α)) (k : String) : Option α :=
  match m with
  | [] => none
  | (k₁, v₁) :: rest => if k₁ = k then some v₁ else mapGet rest k

/-- `HashMap::insert`: bind `k` to `v`, replacing any existing binding of
`k` (the `HashMap` holds at most one binding per key). -/
def mapInsert {α : Type} (m : List (String × α)) (k : String) (v : α) :
    List (String × α) :=
  (k, v) :: m.filter (fun p => p.1 ≠ k)

/-- `tokio::sync::broadcast::Sender::send`: deliver `m` to every current
subscriber's queue; with zero subscribers, deliver nothing and return
`Err(SendError(m))` (modelled as `Except.error`), otherwise `Ok(n)` with
the receiver count.  It never blocks: it is a total function. -/
def busSend {M : Type} (queues : List (List M)) (m : M) :
    List (List M) × Except Unit Nat :=
  if queues.isEmpty then (queues, .error ())
  else (queues.map (fun q => q ++ [m]), .ok queues.length)

/-- `AppState` from `src/lib.rs`: the registry map plus the broadcast
channel, the latter represented by its subscribers' pending queues. -/
structure AppState (σ : Type) where
  elements : List (String × UiElement σ)
  subscribers : List (List (ServerMessage σ))

/-- `AppState::new()`: empty registry, a channel with no subscribers yet. -/
def AppState.new (σ : Type) : AppState σ := ⟨[], []⟩

/-- `AppState::add_element`: insert `element` keyed by its own embedded id.
No send on the update channel occurs. -/
def add_element {σ : Type} (st : AppState σ) (element : UiElement σ) : AppState σ :=
  { st with elements := mapInsert st.elements (elementId element) element }

/-- `AppState::update_element`: insert `element` keyed by the caller's `id`
argument, then `let _ = self.update_tx.send(Update { id, element })` — the
send's result (an error when nobody subscribes) is discarded. -/
def update_element {σ : Type} (st : AppState σ) (id : String) (element : UiElement σ) :
    AppState σ :=
  { elements := mapInsert st.elements id element
    subscribers := (busSend st.subscribers (.Update id element)).1 }

/-- `AppState::get_all_elements`: clone out all current element values. -/
def get_all_elements {σ : Type} (st : AppState σ) : List (UiElement σ) :=
  st.elements.map Prod.snd

/-- The locked block of `AppState::handle_click`: under the registry lock,
look up `id` and clone the handler when the entry is a `Button` whose
`on_click` is present; in every other case produce nothing. -/
def handle_click_locked {σ : Type} (st : AppState σ) (id : String) : Option (σ → σ) :=
  match mapGet st.elements id with
  | some (.Button _ _ (some handler)) => some handler
  | _ => none

/-- `AppState::handle_click`: run the locked lookup, then (with the lock
released) invoke the cloned handler if one was found. -/
def handle_click {σ : Type} (st : AppState σ) (id : String) (w : σ) : σ :=
  match handle_click_locked st id with
  | some handler => handler w
  | none => w

/-- The locked block of `AppState::handle_input`. -/
def handle_input_locked {σ : Type} (st : AppState σ) (id : String) :
    Option (String → σ → σ) :=
  match mapGet st.elements id with
  | some (.Input _ _ (some handler)) => some handler
  | _ => none

/-- `AppState::handle_input`: locked lookup, then invocation with the
payload string outside the lock. -/
def handle_input {σ : Type} (st : AppState σ) (id : String) (value : String) (w : σ) : σ :=
  match handle_input_locked st id with
  | some handler => handler value w
  | none => w

/-- The `HandlerCall` enum local to `AppState::handle_change`: a cloned
handler paired with the successfully coerced payload. -/
inductive HandlerCall (σ : Type) where
  | boolCall (handler : Bool → σ → σ) (value : Bool)
  | numberCall (handler : Rat → σ → σ) (value : Rat)

/-- The locked block of `AppState::handle_change`: look up `id`; for
Checkbox/Radio with a handler, coerce the payload with `as_bool`; for
Slider/NumberInput with a handler, coerce with `as_f64`; every other case
(absent id, other kind, missing handler, failed coercion) yields nothing. -/
def handle_change_locked {σ : Type} (st : AppState σ) (id : String) (value : Json) :
    Option (HandlerCall σ) :=
  match mapGet st.elements id with
  | some element =>
    match element with
    | .Checkbox _ _ (some handler) =>
        (value.as_bool).map (fun checked => .boolCall handler checked)
    | .Slider _ _ _ _ _ (some handler) =>
        (value.as_f64).map (fun num => .numberCall handler num)
    | .Radio _ _ _ _ (some handler) =>
        (value.as_bool).map (fun checked => .boolCall handler checked)
    | .NumberInput _ _ _ _ _ (some handler) =>
        (value.as_f64).map (fun num => .numberCall handler num)
    | _ => none
  | none => none

/-- `AppState::handle_change`: locked lookup and coercion, then invocation
of the selected handler call outside the lock. -/
def handle_change {σ : Type} (st : AppState σ) (id : String) (value : Json) (w : σ) : σ :=
  match handle_change_locked st id value with
  | some (.boolCall handler b) => handler b w
  | some (.numberCall handler q) => handler q w
  | none => w

/-! ### Lock traces

Each `AppState` method acquires the single registry mutex for the duration
of one map operation and releases it before doing anything else; the
dispatch methods then invoke the cloned handler.  We embed this discipline
as a trace of lock events, derived from the scoping of the `MutexGuard`
in the Rust source, and state the locking claims over these traces. -/

/-- A lock event: the registry mutex is acquired or released, or a handler
body runs (possibly itself performing lock events, listed in `body`). -/
inductive LockEvt where
  | acquire
  | release
  | handlerStart
  | handlerEnd
deriving DecidableEq

/-- Lock trace of `add_element`: `self.elements.lock().unwrap().insert(..)`
holds the guard for the single statement. -/
def add_element_trace : List LockEvt := [.acquire, .release]

/-- Lock trace of `update_element`: one locked insert; the broadcast send
happens after the guard is dropped and takes no registry lock. -/
def update_element_trace : List LockEvt := [.acquire, .release]

/-- Lock trace of `get_all_elements`: one locked clone of the values. -/
def get_all_elements_trace : List LockEvt := [.acquire, .release]

/-- Lock trace of a dispatch method (`handle_click`, `handle_input`,
`handle_change`), given whether the locked block produced a handler call
and the lock events the handler body itself performs: the lock is acquired
and released inside the block computing the handler; only afterwards does
the handler run. -/
def dispatch_trace (found : Bool) (body : List LockEvt) : List LockEvt :=
  [.acquire, .release] ++
    (if found then [.handlerStart] ++ body ++ [.handlerEnd] else [])

/-- Lock trace of `handle_click st id` whose handler performs `body`. -/
def handle_click_trace {σ : Type} (st : AppState σ) (id : String)
    (body : List LockEvt) : List LockEvt :=
  dispatch_trace (handle_click_locked st id).isSome body

/-- Lock trace of `handle_input st id value` whose handler performs `body`. -/
def handle_input_trace {σ : Type} (st : AppState σ) (id : String)
    (body : List LockEvt) : List LockEvt :=
  dispatch_trace (handle_input_locked st id).isSome body

/-- Lock trace of `handle_change st id value` whose handler performs `body`. -/
def handle_change_trace {σ : Type} (st : AppState σ) (id : String) (value : Json)
    (body : List LockEvt) : List LockEvt :=
  dispatch_trace (handle_change_locked st id value).isSome body

/-- Number of locks held after a trace: acquires minus releases. -/
def heldAfter (t : List LockEvt) : Nat :=
  t.countP (· = LockEvt.acquire) - t.countP (· = LockEvt.release)

/-- The mutex is non-reentrant: a trace deadlocks iff some `acquire`
happens while the lock is already held.  `DeadlockFree t` says every
acquire in `t` finds the lock free. -/
def DeadlockFree (t : List LockEvt) : Prop :=
  ∀ i : Fin t.length, t.get i = .acquire → heldAfter (t.take i.val) = 0

instance (t : List LockEvt) : Decidable (DeadlockFree t) := by
  unfold DeadlockFree; infer_instance

/-- Every handler body in `t` starts while the lock is not held. -/
def HandlersOutsideLock (t : List LockEvt) : Prop :=
  ∀ i : Fin t.length, t.get i = .handlerStart → heldAfter (t.take i.val) = 0

instance (t : List LockEvt) : Decidable (HandlersOutsideLock t) := by
  unfold HandlersOutsideLock; infer_instance

/-! ### Scoping facade

Modelled from the spec: `AppState::scope` and the scoped handle used by
`examples/scoped.rs` are not present under `src/` (only the example calls
them).  Per the spec (§4.5 Scoping Facade, §3 Scope), a scoped handle
shares the parent's registry and bus and composes its segment path into a
prefix with a double-colon delimiter; every operation rewrites the
caller-supplied local identifier into the fully-qualified global
identifier and then delegates verbatim to the shared registry/bus. -/
structure ScopedState where
  path : List String

/-- Modelled from the spec: the root handle has an empty segment path. -/
def rootScope : ScopedState := ⟨[]⟩

/-- Modelled from the spec: `scope(parent, segment)` composes `segment`
onto the parent's path, sharing the registry and bus. -/
def ScopedState.scope (sc : ScopedState) (segment : String) : ScopedState :=
  ⟨sc.path ++ [segment]⟩

/-- Modelled from the spec: the fully-qualified global identifier derived
from a local identifier — each path segment becomes a double-colon
separated prefix. -/
def ScopedState.qualify (sc : ScopedState) (localId : String) : String :=
  sc.path.foldr (fun seg acc => seg ++ "::" ++ acc) localId

/-- Modelled from the spec: rewrite an element's embedded identifier (the
caller-supplied local identifier of `upsert`) to its qualified form. -/
def rewriteElement {σ : Type} (sc : ScopedState) : UiElement σ → UiElement σ
  | .Button id text h => .Button (sc.qualify id) text h
  | .Text id text => .Text (sc.qualify id) text
  | .Input id v h => .Input (sc.qualify id) v h
  | .Checkbox id c h => .Checkbox (sc.qualify id) c h
  | .Slider id v lo hi s h => .Slider (sc.qualify id) v lo hi s h
  | .Radio id n v c h => .Radio (sc.qualify id) n v c h
  | .NumberInput id v lo hi s h => .NumberInput (sc.qualify id) v lo hi s h

/-- Modelled from the spec: scoped `upsert` — rewrite the element's local
identifier, then delegate to `add_element` on the shared state. -/
def scoped_add_element {σ : Type} (sc : ScopedState) (st : AppState σ)
    (element : UiElement σ) : AppState σ :=
  add_element st (rewriteElement sc element)

/-- Modelled from the spec: scoped `upsertAndPublish` — rewrite the
caller-supplied local identifier, then delegate to `update_element`. -/
def scoped_update_element {σ : Type} (sc : ScopedState) (st : AppState σ)
    (id : String) (element : UiElement σ) : AppState σ :=
  update_element st (sc.qualify id) element

/-- Modelled from the spec: scoped `lookup` — rewrite, then look up in the
shared registry. -/
def scoped_lookup {σ : Type} (sc : ScopedState) (st : AppState σ)
    (id : String) : Option (UiElement σ) :=
  mapGet st.elements (sc.qualify id)

/-! ### Map lemmas -/

theorem mapGet_mapInsert_same {α : Type} (m : List (String × α)) (k : String) (v : α) :
    mapGet (mapInsert m k v) k = some v := by
  simp [mapInsert, mapGet]

theorem mapGet_filter_ne {α : Type} (m : List (String × α)) (k k' : String)
    (h : k ≠ k') :
    mapGet (m.filter (fun p => p.1 ≠ k)) k' = mapGet m k' := by
  induction m with
  | nil => rfl
  | cons p rest ih =>
    obtain ⟨k₁, v₁⟩ := p
    by_cases hk : k₁ = k
    · subst hk
      simp only [List.filter_cons]
      rw [if_neg (by simp)]
      rw [ih]
      simp only [mapGet]
      rw [if_neg h]
    · simp only [List.filter_cons]
      rw [if_pos (by simp [hk])]
      simp only [mapGet]
      by_cases hq : k₁ = k'
      · rw [if_pos hq, if_pos hq]
      · rw [if_neg hq, if_neg hq, ih]

theorem mapGet_mapInsert_other {α : Type} (m : List (String × α)) (k k' : String)
    (v : α) (h : k ≠ k') : mapGet (mapInsert m k v) k' = mapGet m k' := by
  simp only [mapInsert, mapGet, if_neg h]
  exact mapGet_filter_ne m k k' h

theorem countP_mapInsert {α : Type} (m : List (String × α)) (k : String) (v : α) :
    (mapInsert m k v).countP (fun p => p.1 = k) = 1 := by
  simp only [mapInsert, List.countP_cons]
  have h0 : (m.filter (fun p => p.1 ≠ k)).countP (fun p => decide (p.1 = k)) = 0 := by
    rw [List.countP_eq_zero]
    intro p hp
    have := List.of_mem_filter hp
    simpa using this
  simp [h0]

theorem mem_values_of_mapGet {α : Type} (m : List (String × α)) (k : String) (v : α)
    (h : mapGet m k = some v) : v ∈ m.map Prod.snd := by
  induction m with
  | nil => simp [mapGet] at h
  | cons p rest ih =>
    cases p with
    | mk k₁ v₁ =>
      simp only [mapGet] at h
      by_cases hk : k₁ = k
      · rw [if_pos hk] at h
        simp [Option.some_inj.mp h]
      · rw [if_neg hk] at h
        simp [ih h]

theorem update_element_subscribers_get {σ : Type} (st : AppState σ) (id : String)
    (e : UiElement σ) (i : Nat) (q : List (ServerMessage σ))
    (hq : st.subscribers[i]? = some q) :
    (update_element st id e).subscribers[i]? =
      some (q ++ [ServerMessage.Update id e]) := by
  have hne : st.subscribers.isEmpty = false := by
    cases h : st.subscribers with
    | nil => rw [h] at hq; simp at hq
    | cons a as => simp [h]
  simp [update_element, busSend, hne, List.getElem?_map, hq]

theorem update_element_subscribers_length {σ : Type} (st : AppState σ) (id : String)
    (e : UiElement σ) :
    (update_element st id e).subscribers.length = st.subscribers.length := by
  by_cases h : st.subscribers.isEmpty = true <;>
    simp [update_element, busSend, h]

/-! ### Claim theorems -/

/-- C2: `update_element id e` first inserts/replaces the registry entry
under `id` and then sends exactly one `Update` message carrying the new
element on the update channel, so every currently subscribed session's
queue grows by exactly that one message (no session appears or drops), and
a subsequent snapshot contains the new value; `add_element`, the only
other mutating registry operation, publishes nothing. -/
theorem update_element_inserts_then_publishes_once {σ : Type} (st : AppState σ)
    (id : String) (e : UiElement σ) (i : Nat) (q : List (ServerMessage σ))
    (hq : st.subscribers[i]? = some q) :
    mapGet (update_element st id e).elements id = some e
    ∧ e ∈ get_all_elements (update_element st id e)
    ∧ (update_element st id e).subscribers[i]? =
        some (q ++ [ServerMessage.Update id e])
    ∧ (update_element st id e).subscribers.length = st.subscribers.length
    ∧ (∀ e' : UiElement σ, (add_element st e').subscribers = st.subscribers) := by
  refine ⟨mapGet_mapInsert_same _ _ _,
    mem_values_of_mapGet _ _ _ (mapGet_mapInsert_same st.elements id e),
    update_element_subscribers_get st id e i q hq,
    update_element_subscribers_length st id e,
    fun e' => rfl⟩

/-- C2 witness: one subscribed session with an empty queue, updating
`"status"` to a `Text` element. -/
theorem update_element_inserts_then_publishes_once_witness :
    mapGet (update_element (⟨[], [[]]⟩ : AppState Nat) "status"
        (.Text "status" "hi")).elements "status" = some (.Text "status" "hi")
    ∧ (.Text "status" "hi") ∈ get_all_elements
        (update_element (⟨[], [[]]⟩ : AppState Nat) "status" (.Text "status" "hi"))
    ∧ (update_element (⟨[], [[]]⟩ : AppState Nat) "status"
        (.Text "status" "hi")).subscribers[0]? =
        some ([] ++ [ServerMessage.Update "status" (.Text "status" "hi")])
    ∧ (update_element (⟨[], [[]]⟩ : AppState Nat) "status"
        (.Text "status" "hi")).subscribers.length =
        (⟨[], [[]]⟩ : AppState Nat).subscribers.length
    ∧ (∀ e' : UiElement Nat,
        (add_element (⟨[], [[]]⟩ : AppState Nat) e').subscribers =
          (⟨[], [[]]⟩ : AppState Nat).subscribers) :=
  update_element_inserts_then_publishes_once ⟨[], [[]]⟩ "status"
    (.Text "status" "hi") 0 [] rfl

/-- C3: inserting two elements that share one identifier leaves exactly one
registry entry under that identifier, holding the second element — the
second wholly replaces the first, handler slot included. -/
theorem add_element_upsert_idempotent {σ : Type} (st : AppState σ)
    (e₁ e₂ : UiElement σ) (h : elementId e₁ = elementId e₂) :
    ((add_element (add_element st e₁) e₂).elements.countP
        (fun p => p.1 = elementId e₁)) = 1
    ∧ mapGet (add_element (add_element st e₁) e₂).elements (elementId e₁) =
        some e₂ := by
  rw [h]
  exact ⟨countP_mapInsert _ _ _, mapGet_mapInsert_same _ _ _⟩

/-- C3 witness: two Buttons with id `"x"` (the first carrying a handler,
the second none) — one entry remains, holding the second. -/
theorem add_element_upsert_idempotent_witness :
    ((add_element (add_element (AppState.new Nat)
        (.Button "x" "a" (some id))) (.Button "x" "b" none)).elements.countP
        (fun p => p.1 = elementId (.Button "x" "a" (some (id : Nat → Nat))))) = 1
    ∧ mapGet (add_element (add_element (AppState.new Nat)
        (.Button "x" "a" (some id))) (.Button "x" "b" none)).elements
        (elementId (.Button "x" "a" (some (id : Nat → Nat)))) =
        some (.Button "x" "b" none) :=
  add_element_upsert_idempotent (AppState.new Nat)
    (.Button "x" "a" (some id)) (.Button "x" "b" none) rfl

/-- C7: `add_element e` stores `e` under `e`'s own embedded identifier and
leaves every subscriber queue (the whole bus state) unchanged — no
subscriber receives any message from it. -/
theorem add_element_no_broadcast {σ : Type} (st : AppState σ) (e : UiElement σ) :
    mapGet (add_element st e).elements (elementId e) = some e
    ∧ (add_element st e).subscribers = st.subscribers :=
  ⟨mapGet_mapInsert_same _ _ _, rfl⟩

/-- C8: with zero subscribers, `update_element` still performs the registry
insertion, the bus send fails with an error that the function discards (it
is a total function — nothing blocks, nothing propagates), and the
subscriber state stays empty. -/
theorem update_element_zero_subscribers_noop {σ : Type} (st : AppState σ)
    (id : String) (e : UiElement σ) (h : st.subscribers = []) :
    (update_element st id e).subscribers = []
    ∧ mapGet (update_element st id e).elements id = some e
    ∧ (busSend st.subscribers (ServerMessage.Update id e)).2 = .error () := by
  refine ⟨?_, mapGet_mapInsert_same _ _ _, ?_⟩ <;>
    simp [update_element, busSend, h]

/-- C8 witness: a fresh state (no subscribers), updating `"a"`. -/
theorem update_element_zero_subscribers_noop_witness :
    (update_element (AppState.new Nat) "a" (.Text "a" "t")).subscribers = []
    ∧ mapGet (update_element (AppState.new Nat) "a"
        (.Text "a" "t")).elements "a" = some (.Text "a" "t")
    ∧ (busSend (AppState.new Nat).subscribers
        (ServerMessage.Update "a" (.Text "a" "t"))).2 = .error () :=
  update_element_zero_subscribers_noop (AppState.new Nat) "a" (.Text "a" "t") rfl

/-- C9: `update_element` keys the entry by its caller-supplied `id`
argument, not by the element's embedded identifier: when the two differ,
the element lands under `id`, the entry under the embedded identifier is
untouched, and the broadcast message carries the supplied `id` together
with the element verbatim. -/
theorem update_element_keys_by_argument {σ : Type} (st : AppState σ)
    (id : String) (e : UiElement σ) (hne : id ≠ elementId e) (i : Nat)
    (q : List (ServerMessage σ)) (hq : st.subscribers[i]? = some q) :
    mapGet (update_element st id e).elements id = some e
    ∧ mapGet (update_element st id e).elements (elementId e) =
        mapGet st.elements (elementId e)
    ∧ (update_element st id e).subscribers[i]? =
        some (q ++ [ServerMessage.Update id e]) :=
  ⟨mapGet_mapInsert_same _ _ _,
    mapGet_mapInsert_other _ _ _ _ hne,
    update_element_subscribers_get st id e i q hq⟩

/-- C9 witness: storing a `Text` whose embedded id is `"b"` under the
divergent key `"a"`, with one subscribed session. -/
theorem update_element_keys_by_argument_witness :
    mapGet (update_element (⟨[("b", .Text "b" "old")], [[]]⟩ : AppState Nat) "a"
        (.Text "b" "new")).elements "a" = some (.Text "b" "new")
    ∧ mapGet (update_element (⟨[("b", .Text "b" "old")], [[]]⟩ : AppState Nat) "a"
        (.Text "b" "new")).elements (elementId (.Text "b" "new" : UiElement Nat)) =
        mapGet (⟨[("b", .Text "b" "old")], [[]]⟩ : AppState Nat).elements
          (elementId (.Text "b" "new" : UiElement Nat))
    ∧ (update_element (⟨[("b", .Text "b" "old")], [[]]⟩ : AppState Nat) "a"
        (.Text "b" "new")).subscribers[0]? =
        some ([] ++ [ServerMessage.Update "a" (.Text "b" "new")]) :=
  update_element_keys_by_argument ⟨[("b", .Text "b" "old")], [[]]⟩ "a"
    (.Text "b" "new") (by decide) 0 [] rfl

/-- A registry holding one Button `"b1"` whose click handler increments a
`Nat` counter (the end-to-end scenario of the spec's §8). -/
def counterButtonState : AppState Nat :=
  add_element (AppState.new Nat) (.Button "b1" "Click" (some (fun n => n + 1)))

/-- C4: a click dispatch invokes the zero-argument handler exactly when the
registry holds a Button under `id` with a handler attached; with an absent
id, a non-Button element, or no handler the dispatch leaves the world
unchanged.  Concretely: a Button `"b1"` incrementing a counter from 0
yields 1, a click for unknown `"bx"` leaves it at 1, and a second click on
`"b1"` yields 2. -/
theorem handle_click_button_dispatch {σ : Type} (st : AppState σ) (id : String)
    (w : σ) :
    (∀ (bid btext : String) (h : σ → σ),
        mapGet st.elements id = some (.Button bid btext (some h)) →
        handle_click st id w = h w)
    ∧ (mapGet st.elements id = none → handle_click st id w = w)
    ∧ (∀ e, mapGet st.elements id = some e →
        (∀ (bid btext : String) (h : σ → σ), e ≠ .Button bid btext (some h)) →
        handle_click st id w = w)
    ∧ handle_click counterButtonState "b1" 0 = 1
    ∧ handle_click counterButtonState "bx" 1 = 1
    ∧ handle_click counterButtonState "b1" 1 = 2 := by
  refine ⟨?_, ?_, ?_, by decide, by decide, by decide⟩
  · intro bid btext h hm
    simp [handle_click, handle_click_locked, hm]
  · intro hm
    simp [handle_click, handle_click_locked, hm]
  · intro e hm hne
    have hl : handle_click_locked st id = none := by
      unfold handle_click_locked
      rw [hm]
      cases e with
      | Button bid btext hcl =>
        cases hcl with
        | none => rfl
        | some hf => exact absurd rfl (hne bid btext hf)
      | Text _ _ => rfl
      | Input _ _ _ => rfl
      | Checkbox _ _ _ => rfl
      | Slider _ _ _ _ _ _ => rfl
      | Radio _ _ _ _ _ => rfl
      | NumberInput _ _ _ _ _ _ => rfl
    simp [handle_click, hl]

/-- C4 witness: the click on the concrete Button `"b1"` runs its
incrementing handler. -/
theorem handle_click_button_dispatch_witness :
    handle_click counterButtonState "b1" 0 = (fun n => n + 1) 0 :=
  (handle_click_button_dispatch counterButtonState "b1" 0).1 "b1" "Click"
    (fun n => n + 1) rfl

/-- C5: a change dispatch type-checks the payload against the target kind —
`as_bool` for Checkbox/Radio, `as_f64` for Slider/NumberInput — invoking
the handler with the coerced value exactly when coercion succeeds and
leaving the world unchanged when it fails; every dispatch either performs
the one selected handler call or is a no-op (no error path exists). -/
theorem handle_change_type_checked {σ : Type} (st : AppState σ) (id : String)
    (v : Json) (w : σ) :
    (∀ (eid : String) (c : Bool) (h : Bool → σ → σ),
        mapGet st.elements id = some (.Checkbox eid c (some h)) →
        ((∀ b, v.as_bool = some b → handle_change st id v w = h b w)
          ∧ (v.as_bool = none → handle_change st id v w = w)))
    ∧ (∀ (eid nm rv : String) (c : Bool) (h : Bool → σ → σ),
        mapGet st.elements id = some (.Radio eid nm rv c (some h)) →
        ((∀ b, v.as_bool = some b → handle_change st id v w = h b w)
          ∧ (v.as_bool = none → handle_change st id v w = w)))
    ∧ (∀ (eid : String) (val lo hi : Rat) (stp : Option Rat) (h : Rat → σ → σ),
        mapGet st.elements id = some (.Slider eid val lo hi stp (some h)) →
        ((∀ n, v.as_f64 = some n → handle_change st id v w = h n w)
          ∧ (v.as_f64 = none → handle_change st id v w = w)))
    ∧ (∀ (eid : String) (val : Rat) (lo hi stp : Option Rat) (h : Rat → σ → σ),
        mapGet st.elements id = some (.NumberInput eid val lo hi stp (some h)) →
        ((∀ n, v.as_f64 = some n → handle_change st id v w = h n w)
          ∧ (v.as_f64 = none → handle_change st id v w = w)))
    ∧ (handle_change_locked st id v = none → handle_change st id v w = w)
    ∧ (∀ h b, handle_change_locked st id v = some (.boolCall h b) →
        handle_change st id v w = h b w)
    ∧ (∀ h n, handle_change_locked st id v = some (.numberCall h n) →
        handle_change st id v w = h n w) := by
  refine ⟨?_, ?_, ?_, ?_, ?_, ?_, ?_⟩
  · intro eid c h hm
    exact ⟨fun b hb => by simp [handle_change, handle_change_locked, hm, hb],
      fun hb => by simp [handle_change, handle_change_locked, hm, hb]⟩
  · intro eid nm rv c h hm
    exact ⟨fun b hb => by simp [handle_change, handle_change_locked, hm, hb],
      fun hb => by simp [handle_change, handle_change_locked, hm, hb]⟩
  · intro eid val lo hi stp h hm
    exact ⟨fun n hn => by simp [handle_change, handle_change_locked, hm, hn],
      fun hn => by simp [handle_change, handle_change_locked, hm, hn]⟩
  · intro eid val lo hi stp h hm
    exact ⟨fun n hn => by simp [handle_change, handle_change_locked, hm, hn],
      fun hn => by simp [handle_change, handle_change_locked, hm, hn]⟩
  · intro hl; simp [handle_change, hl]
  · intro h b hl; simp [handle_change, hl]
  · intro h n hl; simp [handle_change, hl]

/-- A registry holding one Slider `"s"` whose change handler increments a
`Nat` invocation counter. -/
def sliderState : AppState Nat :=
  add_element (AppState.new Nat) (.Slider "s" 0 0 10 none (some (fun _ n => n + 1)))

/-- C5 witness: a boolean payload against the Slider (which expects a
number) does not invoke its handler — the counter stays at 7. -/
theorem handle_change_type_checked_witness :
    handle_change sliderState "s" (.bool true) 7 = 7 :=
  ((handle_change_type_checked sliderState "s" (.bool true) 7).2.2.1 "s" 0 0 10
    none (fun _ n => n + 1) rfl).2 rfl

/-- C10: the payload check never coerces across JSON types: a string
payload never invokes any handler, a numeric payload never invokes a
Checkbox or Radio handler, while both integer and float JSON numbers are
accepted for Slider and NumberInput. -/
theorem handle_change_strict_json_types {σ : Type} (st : AppState σ)
    (id s : String) (w : σ) (n : JNumber) (i : Int) (q : Rat) :
    handle_change st id (.str s) w = w
    ∧ (∀ (eid : String) (c : Bool) (h : Bool → σ → σ),
        mapGet st.elements id = some (.Checkbox eid c (some h)) →
        handle_change st id (.num n) w = w)
    ∧ (∀ (eid nm rv : String) (c : Bool) (h : Bool → σ → σ),
        mapGet st.elements id = some (.Radio eid nm rv c (some h)) →
        handle_change st id (.num n) w = w)
    ∧ (∀ (eid : String) (val lo hi : Rat) (stp : Option Rat) (h : Rat → σ → σ),
        mapGet st.elements id = some (.Slider eid val lo hi stp (some h)) →
        handle_change st id (.num (.intVal i)) w = h (i : Rat) w
        ∧ handle_change st id (.num (.floatVal q)) w = h q w)
    ∧ (∀ (eid : String) (val : Rat) (lo hi stp : Option Rat) (h : Rat → σ → σ),
        mapGet st.elements id = some (.NumberInput eid val lo hi stp (some h)) →
        handle_change st id (.num (.intVal i)) w = h (i : Rat) w
        ∧ handle_change st id (.num (.floatVal q)) w = h q w) := by
  refine ⟨?_, ?_, ?_, ?_, ?_⟩
  · have hl : handle_change_locked st id (.str s) = none := by
      unfold handle_change_locked
      cases hm : mapGet st.elements id with
      | none => rfl
      | some e =>
        cases e with
        | Button _ _ _ => rfl
        | Text _ _ => rfl
        | Input _ _ _ => rfl
        | Checkbox _ _ hc => cases hc <;> rfl
        | Slider _ _ _ _ _ hc => cases hc <;> rfl
        | Radio _ _ _ _ hc => cases hc <;> rfl
        | NumberInput _ _ _ _ _ hc => cases hc <;> rfl
    simp [handle_change, hl]
  · intro eid c h hm
    simp [handle_change, handle_change_locked, hm, Json.as_bool]
  · intro eid nm rv c h hm
    simp [handle_change, handle_change_locked, hm, Json.as_bool]
  · intro eid val lo hi stp h hm
    constructor <;> simp [handle_change, handle_change_locked, hm, Json.as_f64]
  · intro eid val lo hi stp h hm
    constructor <;> simp [handle_change, handle_change_locked, hm, Json.as_f64]

/-- C10 witness: against the concrete Slider, a string payload `"5"` is a
no-op while the integer payload `5` and the float payload `5/2` both invoke
the handler. -/
theorem handle_change_strict_json_types_witness :
    handle_change sliderState "s" (.str "5") (7 : Nat) = 7
    ∧ (handle_change sliderState "s" (.num (.intVal 5)) (7 : Nat) =
        (fun _ n => n + 1) (((5 : Int) : Rat)) 7
      ∧ handle_change sliderState "s" (.num (.floatVal (5 / 2))) (7 : Nat) =
        (fun _ n => n + 1) ((5 : Rat) / 2) 7) :=
  ⟨(handle_change_strict_json_types sliderState "s" "5" 7 (.intVal 5) 5 (5 / 2)).1,
   (handle_change_strict_json_types sliderState "s" "5" 7 (.intVal 5) 5
      (5 / 2)).2.2.2.1 "s" 0 0 10 none (fun _ n => n + 1) rfl⟩

theorem dispatch_trace_props (found : Bool) (body : List LockEvt)
    (hb : body = [] ∨ body = add_element_trace ∨ body = update_element_trace) :
    HandlersOutsideLock (dispatch_trace found body)
    ∧ DeadlockFree (dispatch_trace found body) := by
  rcases hb with rfl | rfl | rfl <;> cases found <;> exact ⟨by decide, by decide⟩

/-- C1: in every dispatch (`handle_click`, `handle_input`,
`handle_change`), the handler body starts only when the registry lock is
no longer held (its acquire/release both precede the handler), so a
handler that re-enters the registry through `add_element` or
`update_element` — or takes no lock at all — finds the non-reentrant mutex
free and cannot deadlock against its caller. -/
theorem handler_invoked_outside_lock {σ : Type} (st : AppState σ) (id : String)
    (v : Json) (body : List LockEvt)
    (hb : body = [] ∨ body = add_element_trace ∨ body = update_element_trace) :
    (HandlersOutsideLock (handle_click_trace st id body)
      ∧ DeadlockFree (handle_click_trace st id body))
    ∧ (HandlersOutsideLock (handle_input_trace st id body)
      ∧ DeadlockFree (handle_input_trace st id body))
    ∧ (HandlersOutsideLock (handle_change_trace st id v body)
      ∧ DeadlockFree (handle_change_trace st id v body)) :=
  ⟨dispatch_trace_props _ body hb, dispatch_trace_props _ body hb,
    dispatch_trace_props _ body hb⟩

/-- C1 witness: the Button `"b1"` dispatch whose handler re-enters the
registry through `update_element`. -/
theorem handler_invoked_outside_lock_witness :
    (HandlersOutsideLock (handle_click_trace counterButtonState "b1" update_element_trace)
      ∧ DeadlockFree (handle_click_trace counterButtonState "b1" update_element_trace))
    ∧ (HandlersOutsideLock (handle_input_trace counterButtonState "b1" update_element_trace)
      ∧ DeadlockFree (handle_input_trace counterButtonState "b1" update_element_trace))
    ∧ (HandlersOutsideLock (handle_change_trace counterButtonState "b1" .null update_element_trace)
      ∧ DeadlockFree (handle_change_trace counterButtonState "b1" .null update_element_trace)) :=
  handler_invoked_outside_lock counterButtonState "b1" .null update_element_trace
    (Or.inr (Or.inr rfl))

/-- C6: every scoped operation rewrites the caller-supplied local
identifier into the double-colon-qualified global identifier before
delegating to the shared registry and bus; the scopes `"form"` and
`"modal"`, each registering local id `"status"`, coexist as the distinct
entries `"form::status"` and `"modal::status"`, and updating form's
`"status"` broadcasts only under `"form::status"`, never under modal's
identifier. -/
theorem scoped_ops_qualify_and_isolate {σ : Type} (st : AppState σ)
    (textF textM : String) (e : UiElement σ) (i : Nat)
    (q : List (ServerMessage σ)) (hq : st.subscribers[i]? = some q) :
    (rootScope.scope "form").qualify "status" = "form::status"
    ∧ (rootScope.scope "modal").qualify "status" = "modal::status"
    ∧ scoped_lookup (rootScope.scope "form")
        (scoped_add_element (rootScope.scope "modal")
          (scoped_add_element (rootScope.scope "form") st (.Text "status" textF))
          (.Text "status" textM)) "status" = some (.Text "form::status" textF)
    ∧ scoped_lookup (rootScope.scope "modal")
        (scoped_add_element (rootScope.scope "modal")
          (scoped_add_element (rootScope.scope "form") st (.Text "status" textF))
          (.Text "status" textM)) "status" = some (.Text "modal::status" textM)
    ∧ scoped_update_element (rootScope.scope "form") st "status" e =
        update_element st "form::status" e
    ∧ (scoped_update_element (rootScope.scope "form") st "status" e).subscribers[i]? =
        some (q ++ [ServerMessage.Update "form::status" e])
    ∧ "form::status" ≠ "modal::status" := by
  have hf : (rootScope.scope "form").qualify "status" = "form::status" := by decide
  have hm : (rootScope.scope "modal").qualify "status" = "modal::status" := by decide
  refine ⟨hf, hm, ?_, ?_, ?_, ?_, by decide⟩
  · simp only [scoped_lookup, scoped_add_element, add_element, rewriteElement,
      elementId, hf, hm]
    rw [mapGet_mapInsert_other _ _ _ _ (by decide), mapGet_mapInsert_same]
  · simp only [scoped_lookup, scoped_add_element, add_element, rewriteElement,
      elementId, hf, hm]
    rw [mapGet_mapInsert_same]
  · simp only [scoped_update_element, hf]
  · simp only [scoped_update_element, hf]
    exact update_element_subscribers_get st "form::status" e i q hq

/-- C6 witness: the scoped scenario on a concrete state with one subscribed
session. -/
theorem scoped_ops_qualify_and_isolate_witness :
    (rootScope.scope "form").qualify "status" = "form::status"
    ∧ (rootScope.scope "modal").qualify "status" = "modal::status"
    ∧ scoped_lookup (rootScope.scope "form")
        (scoped_add_element (rootScope.scope "modal")
          (scoped_add_element (rootScope.scope "form") (⟨[], [[]]⟩ : AppState Nat)
            (.Text "status" "Ready"))
          (.Text "status" "Modal")) "status" = some (.Text "form::status" "Ready")
    ∧ scoped_lookup (rootScope.scope "modal")
        (scoped_add_element (rootScope.scope "modal")
          (scoped_add_element (rootScope.scope "form") (⟨[], [[]]⟩ : AppState Nat)
            (.Text "status" "Ready"))
          (.Text "status" "Modal")) "status" = some (.Text "modal::status" "Modal")
    ∧ scoped_update_element (rootScope.scope "form") (⟨[], [[]]⟩ : AppState Nat)
        "status" (.Text "status" "done") =
        update_element (⟨[], [[]]⟩ : AppState Nat) "form::status" (.Text "status" "done")
    ∧ (scoped_update_element (rootScope.scope "form") (⟨[], [[]]⟩ : AppState Nat)
        "status" (.Text "status" "done")).subscribers[0]? =
        some ([] ++ [ServerMessage.Update "form::status" (.Text "status" "done")])
    ∧ "form::status" ≠ "modal::status" :=
  scoped_ops_qualify_and_isolate (⟨[], [[]]⟩ : AppState Nat) "Ready" "Modal"
    (.Text "status" "done") 0 [] rfl

end WebUI
